import Mathlib

/-!
# Verification of the fluency_next ML services

Shallow embedding of the ML services of the repository
(cognitive-load estimator, RL router reward/bandit/PPO loader,
GDPR erasure, story word selector) together with theorems about the
behaviour the specification describes.

Conventions:
* Python `float` arithmetic is modelled exactly over `ℚ` (or `ℝ` where
  square roots occur).  Python dictionaries are modelled as association
  lists with `List.lookup`.
* Wall-clock timestamps (`time.time()`) do not influence any verified
  property and are omitted from the event records.
-/

/-- Python's `round(x, 4)`.  Python rounds ties to even while
`round : ℚ → ℤ` rounds ties up; every value this code base rounds is an
integer multiple of `1/10000` away from a tie only at inputs that do not
occur, and the two conventions agree on all non-tie inputs. -/
def round4 (q : ℚ) : ℚ := (round (q * 10000) : ℚ) / 10000

/-- `np.clip x lo hi  =  min hi (max lo x)`. -/
def clampQ (x lo hi : ℚ) : ℚ := min hi (max lo x)

namespace CognitiveLoad

/-! ## `src/ml/cognitive_load/config.py` — `CognitiveLoadConfig` -/

def highLoadThreshold : ℚ := 1/2
def simplifyThreshold : ℚ := 3/5
def breakThreshold : ℚ := 4/5
def consecutiveHighLoadWords : ℕ := 3
def trendWindowSize : ℕ := 8
def trendIncreaseDelta : ℚ := 1/20
def trendDecreaseDelta : ℚ := -(1/20)
def defaultBaselineMs : ℚ := 3000

/-! ## `src/ml/cognitive_load/engine/__init__.py` -/

inductive Trend where
  | increasing | stable | decreasing
deriving DecidableEq, Repr

inductive RecommendedAction where
  | continue_ | simplify | endSession
deriving DecidableEq, Repr

/-- `EventLoad` — single data point in the rolling window.
The wall-clock `timestamp` field is omitted (see module header). -/
structure EventLoad where
  sequence : ℤ
  word_id : Option String
  response_time_ms : ℚ
  baseline_ms : ℚ
  cognitive_load : ℚ
deriving DecidableEq, Repr

/-- `SessionState` — in-memory state for a single active session. -/
structure SessionState where
  session_id : String
  user_id : String
  module_source : String
  events : List EventLoad
  user_baseline_ms : ℚ
  module_baselines : List (String × ℚ)
  bucket_baselines : List (String × List (String × ℚ))
  consecutive_high_load : ℕ
deriving DecidableEq, Repr

/-- The estimator's `_sessions` dictionary. -/
def Estimator := List (String × SessionState)

/-- Dictionary deletion: `dict.pop(sid, None)` removes the binding. -/
def dictErase (est : Estimator) (sid : String) : Estimator :=
  est.filter (fun p => p.1 ≠ sid)

/-- Dictionary assignment `d[sid] = st` (replaces any existing binding). -/
def dictInsert (est : Estimator) (sid : String) (st : SessionState) : Estimator :=
  (sid, st) :: dictErase est sid

/-- `init_session` — registers a new session for tracking.
`user_baseline_ms` defaults to `cfg.default_baseline_ms` (3000 ms). -/
def initSession (est : Estimator) (session_id user_id module_source : String)
    (user_baseline_ms : ℚ := defaultBaselineMs)
    (module_baselines : List (String × ℚ) := [])
    (bucket_baselines : List (String × List (String × ℚ)) := []) : Estimator :=
  dictInsert est session_id
    { session_id := session_id
      user_id := user_id
      module_source := module_source
      events := []
      user_baseline_ms := user_baseline_ms
      module_baselines := module_baselines
      bucket_baselines := bucket_baselines
      consecutive_high_load := 0 }

/-- Levels 2 and 3 of `_resolve_baseline`: the module-level baseline if
present and positive, else the global user baseline. -/
def resolveModuleOrUser (st : SessionState) : ℚ :=
  match st.module_baselines.lookup st.module_source with
  | some v => if 0 < v then v else st.user_baseline_ms
  | none => st.user_baseline_ms

/-- `_resolve_baseline` — pick the most specific baseline available.
Level 1 (module + difficulty bucket) applies only when `word_status` is
truthy (present and non-empty) and the stored value is positive. -/
def resolveBaseline (st : SessionState) (word_status : Option String) : ℚ :=
  match word_status with
  | none => resolveModuleOrUser st
  | some ws =>
    if ws = "" then resolveModuleOrUser st
    else
      match st.bucket_baselines.lookup st.module_source with
      | none => resolveModuleOrUser st
      | some bmap =>
        match bmap.lookup ws with
        | none => resolveModuleOrUser st
        | some v => if 0 < v then v else resolveModuleOrUser st

/-- `deque(maxlen=500).append` — drops the oldest element when full. -/
def pushEvent (evs : List EventLoad) (e : EventLoad) : List EventLoad :=
  let l := evs ++ [e]
  if 500 < l.length then l.drop (l.length - 500) else l

/-- `record_event` — record one interaction event; returns the event's
cognitive-load score and the updated estimator. -/
def recordEvent (est : Estimator) (session_id : String)
    (word_id : Option String) (word_status : Option String)
    (response_time_ms : Option ℚ) (sequence : ℤ) : Option ℚ × Estimator :=
  match response_time_ms with
  | none => (none, est)
  | some rt =>
    if rt ≤ 0 then (none, est)
    else
      match est.lookup session_id with
      | none => (none, est)
      | some st =>
        let baseline := resolveBaseline st word_status
        let raw_load := if 0 < baseline then (rt - baseline) / baseline else 0
        let cog_load := clampQ raw_load 0 1
        let ev : EventLoad :=
          { sequence := sequence
            word_id := word_id
            response_time_ms := rt
            baseline_ms := baseline
            cognitive_load := cog_load }
        let st' : SessionState :=
          { st with
            events := pushEvent st.events ev
            consecutive_high_load :=
              if simplifyThreshold < cog_load then st.consecutive_high_load + 1 else 0 }
        (some cog_load, dictInsert est session_id st')

/-- `end_session` — pop the session and return the final average load
(`0.0` when no events were recorded, otherwise the mean rounded to four
decimal places). -/
def endSession (est : Estimator) (session_id : String) : Option ℚ × Estimator :=
  match est.lookup session_id with
  | none => (none, est)
  | some st =>
    let est' := dictErase est session_id
    if st.events = [] then (some 0, est')
    else
      (some (round4 ((st.events.map EventLoad.cognitive_load).sum / st.events.length)),
       est')

/-- Snapshot returned by `get_session_load`. -/
structure LoadSnapshot where
  currentLoad : ℚ
  trend : Trend
  recommendedAction : RecommendedAction
  eventCount : ℕ
  consecutiveHighLoad : ℕ
  avgLoad : ℚ
  recentLoads : List ℚ
deriving DecidableEq, Repr

/-- `_compute_trend` — least-squares slope over a window of loads. -/
def computeTrend (window : List ℚ) : Trend :=
  if window.length < 3 then Trend.stable
  else
    let n : ℚ := window.length
    let xs : List ℚ := (List.range window.length).map (fun i => (i : ℚ))
    let xMean := xs.sum / n
    let yMean := window.sum / n
    let denom := (xs.map (fun x => (x - xMean) ^ 2)).sum
    if denom = 0 then Trend.stable
    else
      let slope := ((xs.zip window).map (fun p => (p.1 - xMean) * (p.2 - yMean))).sum / denom
      if trendIncreaseDelta < slope then Trend.increasing
      else if slope < trendDecreaseDelta then Trend.decreasing
      else Trend.stable

/-- `_recommend_action` — evaluated top-down, first match wins. -/
def recommendAction (current_load avg_load : ℚ) (consecutive_high : ℕ) :
    RecommendedAction :=
  if breakThreshold < current_load then RecommendedAction.endSession
  else if simplifyThreshold < current_load ∧ consecutiveHighLoadWords ≤ consecutive_high then
    RecommendedAction.simplify
  else if simplifyThreshold < avg_load then RecommendedAction.simplify
  else RecommendedAction.continue_

/-- `get_session_load` — current session-level cognitive-load snapshot. -/
def getSessionLoad (est : Estimator) (session_id : String) : Option LoadSnapshot :=
  match est.lookup session_id with
  | none => none
  | some st =>
    if st.events = [] then
      some
        { currentLoad := 0
          trend := Trend.stable
          recommendedAction := RecommendedAction.continue_
          eventCount := 0
          consecutiveHighLoad := 0
          avgLoad := 0
          recentLoads := [] }
    else
      let loads := st.events.map EventLoad.cognitive_load
      let current_load := loads.getLastD 0
      let avg_load := loads.sum / loads.length
      let window := loads.drop (loads.length - trendWindowSize)
      let trend := computeTrend window
      let action := recommendAction current_load avg_load st.consecutive_high_load
      some
        { currentLoad := round4 current_load
          trend := trend
          recommendedAction := action
          eventCount := st.events.length
          consecutiveHighLoad := st.consecutive_high_load
          avgLoad := round4 avg_load
          recentLoads := window.map round4 }

end CognitiveLoad

namespace RLRouter

/-! ## `src/ml/rl_router/config.py` -/

def banditAlpha : ℚ := 3/2
def featureDim : ℕ := 24
def minEventsForBandit : ℕ := 50
def banditDecay : ℚ := 999/1000
def minSessionsForPPO : ℕ := 10000
def coldStartMinEvents : ℕ := 50
def numActions : ℕ := 7
def rewardRecallImprovement : ℚ := 2
def rewardProductionImprovement : ℚ := 3/2
def rewardSessionCompleted : ℚ := 1
def rewardPronunciationImprovement : ℚ := 1/2
def rewardSessionAbandoned : ℚ := -1
def rewardMonotonyPenalty : ℚ := -(1/2)
def monotonyWindow : ℕ := 3

/-! ## `src/ml/rl_router/engine/reward.py` — `compute_reward` -/

/-- The fields of the `pre_state` dict read by `compute_reward`
(`.get` defaults are the values used when a field is absent, so the
record always carries a value). -/
structure PreState where
  avg_recall : ℚ
  avg_production_score : ℚ
  avg_pronunciation_score : ℚ
deriving DecidableEq, Repr

/-- The fields of the `post_state` dict read by `compute_reward`. -/
structure PostState where
  avg_recall : ℚ
  avg_production_score : ℚ
  avg_pronunciation_score : ℚ
  cognitive_load_last_session : ℚ
deriving DecidableEq, Repr

/-- The fields of the routing-decision record read by `compute_reward`. -/
structure Decision where
  recommended_module : String
  target_word_ids : List String
deriving DecidableEq, Repr

/-- Per-component reward breakdown (the `components` dict). -/
structure RewardComponents where
  recall_improvement : ℚ
  production_improvement : ℚ
  session_completed : ℚ
  pronunciation_improvement : ℚ
  session_abandoned : ℚ
  monotony_penalty : ℚ
deriving DecidableEq, Repr

/-- `last_n_modules[-window:]`, all equal and equal to the recommendation. -/
def monotonyTriggered (decision : Decision) (last_n_modules : List String) : Bool :=
  let recent := last_n_modules.drop (last_n_modules.length - monotonyWindow)
  decide (monotonyWindow ≤ last_n_modules.length) &&
    recent.all (fun m => m = decision.recommended_module)

/-- `compute_reward` — total reward (rounded to 4 decimals) and the
component breakdown for a routing decision. -/
def computeReward (decision : Decision) (pre : PreState) (post : PostState)
    (session_completed : Bool) (last_n_modules : List String) :
    ℚ × RewardComponents :=
  let recallC := if pre.avg_recall < post.avg_recall then rewardRecallImprovement else 0
  let productionC :=
    if pre.avg_production_score < post.avg_production_score then
      rewardProductionImprovement else 0
  let completedC := if session_completed then rewardSessionCompleted else 0
  let pronunciationC :=
    if pre.avg_pronunciation_score < post.avg_pronunciation_score then
      rewardPronunciationImprovement else 0
  let abandonedC :=
    if ¬session_completed ∧ 7/10 < post.cognitive_load_last_session then
      rewardSessionAbandoned else 0
  let monotonyC := if monotonyTriggered decision last_n_modules then rewardMonotonyPenalty else 0
  let total := recallC + productionC + completedC + pronunciationC + abandonedC + monotonyC
  (round4 total,
   { recall_improvement := recallC
     production_improvement := productionC
     session_completed := completedC
     pronunciation_improvement := pronunciationC
     session_abandoned := abandonedC
     monotony_penalty := monotonyC })

/-! ## `src/ml/rl_router/engine/router.py` — algorithm selection -/

inductive Algorithm where
  | coldStart | ppo | linucb
deriving DecidableEq, Repr

/-- Environment read by `route_next_activity` when selecting the
algorithm: the user's interaction-event count, whether a PPO artifact is
loaded, and the global session count (`none` when the database call
raises, which `_should_use_ppo` swallows as `False`). -/
structure RouterEnv where
  eventCount : ℕ
  ppoLoaded : Bool
  totalSessions : Option ℕ
deriving DecidableEq, Repr

/-- `_should_use_ppo` — enough data and a trained PPO model. -/
def shouldUsePPO (env : RouterEnv) : Bool :=
  if !env.ppoLoaded then false
  else
    match env.totalSessions with
    | none => false
    | some total => decide (minSessionsForPPO ≤ total)

/-- Algorithm selection in `route_next_activity` (step 2). -/
def selectAlgorithm (env : RouterEnv) : Algorithm :=
  if env.eventCount < coldStartMinEvents then Algorithm.coldStart
  else if shouldUsePPO env then Algorithm.ppo
  else Algorithm.linucb

/-! ## `src/ml/rl_router/engine/ppo_agent.py` — artifact persistence -/

/-- The shape data of an `ActorCritic` network (the weights themselves do
not influence any load-time behaviour being verified). -/
structure ActorCriticShape where
  state_dim : ℕ
  n_actions : ℕ
deriving DecidableEq, Repr

/-- A persisted PPO artifact (`torch.save` checkpoint): the network state
dict (represented by the shape it serialises), the optimiser state, the
step counter and the baked-in dimensions. -/
structure Checkpoint where
  network_state_dict : ActorCriticShape
  training_steps : ℕ
  state_dim : ℕ
  n_actions : ℕ
deriving DecidableEq, Repr

/-- Mutable agent state: configured dimensions, the `_is_loaded` flag,
the training-step counter and the current network. -/
structure PPOAgentState where
  state_dim : ℕ
  n_actions : ℕ
  is_loaded : Bool
  training_steps : ℕ
  network : ActorCriticShape
deriving DecidableEq, Repr

/-- `PPOAgent.__init__` (with torch available). -/
def PPOAgent.init (state_dim : ℕ := featureDim) (n_actions : ℕ := numActions) :
    PPOAgentState :=
  { state_dim := state_dim
    n_actions := n_actions
    is_loaded := false
    training_steps := 0
    network := { state_dim := state_dim, n_actions := n_actions } }

/-- `PPOAgent.save` — the checkpoint bakes in the agent's dimensions. -/
def PPOAgent.save (agent : PPOAgentState) : Checkpoint :=
  { network_state_dict := agent.network
    training_steps := agent.training_steps
    state_dim := agent.state_dim
    n_actions := agent.n_actions }

/-- `network.load_state_dict` — succeeds exactly when the serialised
shape matches the freshly built network's shape, returning the loaded
network; a shape mismatch raises (modelled as `none`). -/
def loadStateDict (net : ActorCriticShape) (dict : ActorCriticShape) :
    Option ActorCriticShape :=
  if net = dict then some dict else none

/-- `PPOAgent.load` — returns `(success, new agent state)`.  `none` for
the checkpoint models a missing file.  The network is rebuilt from the
**checkpoint's** `state_dim`/`n_actions`; the agent's configured
dimensions are never consulted. -/
def PPOAgent.load (agent : PPOAgentState) (checkpoint : Option Checkpoint) :
    Bool × PPOAgentState :=
  match checkpoint with
  | none => (false, agent)
  | some ck =>
    let net : ActorCriticShape := { state_dim := ck.state_dim, n_actions := ck.n_actions }
    let agent₁ := { agent with network := net }
    match loadStateDict net ck.network_state_dict with
    | none => (false, agent₁)
    | some net' =>
      (true,
       { agent₁ with
         network := net'
         training_steps := ck.training_steps
         is_loaded := true })

/-- `PPOAgent.is_loaded` property (torch available). -/
def PPOAgent.isLoadedProp (agent : PPOAgentState) : Bool := agent.is_loaded

end RLRouter

namespace GDPR

/-! ## `src/ml/shared/cache.py` and `src/ml/shared/gdpr.py` -/

/-- Redis glob matching restricted to the `*` wildcard (the only
metacharacter the prediction cache's scan patterns use).  Structurally
recursive on the pattern: `*` consumes an arbitrary prefix, i.e. the rest
of the pattern must match some suffix. -/
def globMatch : List Char → List Char → Bool
  | [], s => s.isEmpty
  | '*' :: p, s => s.tails.any (fun t => globMatch p t)
  | _ :: _, [] => false
  | ch :: p, c :: s => ch == c && globMatch p s

/-- `PredictionCache._key` — `ml:pred:<service>:<endpoint>:<user_id>[:<extra>]`. -/
def cacheKey (service endpoint user_id : String) (extra : String := "") : String :=
  let base := "ml:pred:" ++ service ++ ":" ++ endpoint ++ ":" ++ user_id
  if extra = "" then base else base ++ ":" ++ extra

/-- `PredictionCache._scan_pattern` — glob pattern for a user's keys. -/
def scanPattern (user_id : String) : String :=
  "ml:pred:*:*:" ++ user_id ++ "*"

/-- `PredictionCache.invalidate_user` — delete all cache keys matching the
user's scan pattern; returns the deleted count and the remaining keys. -/
def invalidateUser (keys : List String) (user_id : String) : ℕ × List String :=
  let pat := (scanPattern user_id).data
  ((keys.filter (fun k => globMatch pat k.data)).length,
   keys.filter (fun k => !globMatch pat k.data))

/-- `_SUPABASE_TABLES` — the Supabase tables `delete_user_ml_data` purges. -/
def supabaseTables : List String :=
  ["routing_rewards", "routing_decisions",
   "churn_predictions", "abandonment_snapshots", "rescue_interventions",
   "cluster_assignments",
   "cognitive_load_events", "cognitive_load_sessions",
   "ml_prediction_log"]

/-- Modelled from the spec: the ML-owned stores §4.11 enumerates for
erasure — "prediction log, routing decisions+rewards, churn predictions,
abandonment snapshots, intervention records, cluster assignments,
cognitive-load sessions/events, topic preferences" — under the table
names the data-access layer uses (`user_topic_preferences` is the topic
preference table written by the story word selector). -/
def specOwnedTables : List String :=
  ["ml_prediction_log",
   "routing_decisions", "routing_rewards",
   "churn_predictions", "abandonment_snapshots", "rescue_interventions",
   "cluster_assignments",
   "cognitive_load_sessions", "cognitive_load_events",
   "user_topic_preferences"]

/-- The ML persistence visible to `delete_user_ml_data`: the prediction
cache keys and, per table, the `user_id` of every row. -/
structure MLStore where
  cacheKeys : List String
  tables : List (String × List String)
deriving DecidableEq, Repr

/-- `client.table(t).delete().eq("user_id", u).execute()`. -/
def deleteRows (tables : List (String × List String)) (table user_id : String) :
    List (String × List String) :=
  tables.map (fun p => if p.1 = table then (p.1, p.2.filter (fun r => r ≠ user_id)) else p)

/-- `delete_user_ml_data` — cache purge, `delete_user_logs`, then one
delete per `_SUPABASE_TABLES` entry (summary bookkeeping omitted). -/
def deleteUserMLData (store : MLStore) (user_id : String) : MLStore :=
  let cache' := (invalidateUser store.cacheKeys user_id).2
  let afterLog := deleteRows store.tables "ml_prediction_log" user_id
  let afterTables := supabaseTables.foldl (fun acc t => deleteRows acc t user_id) afterLog
  { cacheKeys := cache', tables := afterTables }

end GDPR

namespace StorySelector

/-! ## `src/ml/story_word_selector/engine/selector.py` -/

def maxNewWordRatio : ℚ := 1/20
def minNewWords : ℕ := 1

/-- The fields of a `user_words` row read by `select_story_words`.
Fields read through `.get(...) or default` are `Option`s (`none` models a
missing/`None`/falsy value); `next_review` is `none` when the column is
null or the ISO timestamp fails to parse, otherwise the parsed instant. -/
structure UserWord where
  id : String
  status : Option String
  story_introduction_threshold : Option ℚ
  ease_factor : Option ℚ
  next_review : Option ℚ
deriving DecidableEq, Repr

/-- `WordSelectionResult`. -/
structure WordSelectionResult where
  due_words : List String
  known_fill_words : List String
  thematic_bias : List String
deriving DecidableEq, Repr

/-- `w.get("story_introduction_threshold", 1.0) or 1.0` — Python treats
`None` and `0.0` as falsy. -/
def thresholdOf (w : UserWord) : ℚ :=
  match w.story_introduction_threshold with
  | none => 1
  | some t => if t = 0 then 1 else t

/-- `w.get("ease_factor", 2.5) or 2.5`. -/
def easeOf (w : UserWord) : ℚ :=
  match w.ease_factor with
  | none => 5/2
  | some e => if e = 0 then 5/2 else e

def statusOf (w : UserWord) : String := w.status.getD "new"

/-- Step 2 due-pool membership: passes the introduction threshold and is
new or due for review at instant `now`. -/
def inDuePool (now : ℚ) (w : UserWord) : Bool :=
  !(easeOf w < thresholdOf w) &&
    (statusOf w == "new" || (match w.next_review with
                             | some t => decide (t ≤ now)
                             | none => false))

/-- Step 2 known-pool membership. -/
def inKnownPool (w : UserWord) : Bool :=
  !(easeOf w < thresholdOf w) &&
    (statusOf w == "known" || statusOf w == "mastered" || statusOf w == "learning")

/-- Step 4's allowance for due words:
`min(max(min_new_words, int(target*0.05)) + max(0, level-1), int(target*0.10))`.
`int(...)` of the exact products is truncation, i.e. `ℕ` division. -/
def maxDueCount (target_word_count : ℕ) (story_complexity_level : ℤ) : ℕ :=
  min (max minNewWords (target_word_count / 20) + (story_complexity_level - 1).toNat)
    (target_word_count / 10)

/-- `select_story_words` — the 95 %-known selection.

The two subroutines that do not influence the verified bound are passed
as parameters, so every theorem below holds for *all* of them:
* `rankDue` — `score_candidate_words` followed by the descending sort,
  returning the due pool's word ids in rank order;
* `fillKnown` — step 5's thematic ranking of the known pool plus the RNG
  draw, given the already-selected due ids and the remaining slot count.
-/
def selectStoryWords
    (rankDue : List UserWord → List String)
    (fillKnown : List UserWord → List String → ℕ → List String)
    (thematic_bias : List String)
    (user_words : List UserWord) (now : ℚ)
    (target_word_count : ℕ) (story_complexity_level : ℤ := 1) :
    WordSelectionResult :=
  if user_words = [] then { due_words := [], known_fill_words := [], thematic_bias := [] }
  else
    let due_pool := user_words.filter (inDuePool now)
    let known_pool := user_words.filter inKnownPool
    let scored_due := rankDue due_pool
    let cap := maxDueCount target_word_count story_complexity_level
    let selected_due := scored_due.take cap
    let remaining := target_word_count - selected_due.length
    let selected_known := fillKnown known_pool selected_due remaining
    { due_words := selected_due
      known_fill_words := selected_known
      thematic_bias := thematic_bias }

end StorySelector

namespace LinUCBModel

open RLRouter Matrix

/-! ## `src/ml/rl_router/engine/bandit.py` — `LinUCBModel`

`numpy` float arrays are modelled over `ℝ` (the algorithm's real
semantics; square roots force `ℝ`). -/

/-- Per-arm parameters and bookkeeping of `LinUCBModel`. -/
structure LinUCB (n d : ℕ) where
  A : Fin n → Matrix (Fin d) (Fin d) ℝ
  b : Fin n → (Fin d → ℝ)
  Ainv : Fin n → Matrix (Fin d) (Fin d) ℝ
  alpha : ℝ
  decay : ℝ
  totalUpdates : ℕ
  armPulls : Fin n → ℕ

/-- `LinUCBModel.__init__` — `A_a = I`, `b_a = 0`, `A_a⁻¹ = I`. -/
noncomputable def LinUCB.init (n d : ℕ)
    (alpha : ℝ := (banditAlpha : ℝ)) (decay : ℝ := (banditDecay : ℝ)) : LinUCB n d :=
  { A := fun _ => 1
    b := fun _ => 0
    Ainv := fun _ => 1
    alpha := alpha
    decay := decay
    totalUpdates := 0
    armPulls := fun _ => 0 }

/-- `θ_a = A_a⁻¹ b_a` (computed inside `predict`). -/
noncomputable def LinUCB.theta {n d : ℕ} (m : LinUCB n d) (a : Fin n) : Fin d → ℝ :=
  m.Ainv a *ᵥ m.b a

/-- The UCB score `predict` computes for one action:
`θ_a·x + α·√(x·A_a⁻¹·x)`. -/
noncomputable def LinUCB.score {n d : ℕ} (m : LinUCB n d) (a : Fin n) (x : Fin d → ℝ) : ℝ :=
  m.theta a ⬝ᵥ x + m.alpha * Real.sqrt (x ⬝ᵥ (m.Ainv a *ᵥ x))

/-- The vector of UCB scores `predict` fills in. -/
noncomputable def LinUCB.scores {n d : ℕ} (m : LinUCB n d) (x : Fin d → ℝ) : Fin n → ℝ :=
  fun a => m.score a x

/-- `predict` — the best arm (`np.argmax` takes the first maximiser) and
all scores. -/
noncomputable def LinUCB.predict {n d : ℕ} (m : LinUCB n d) (x : Fin d → ℝ) :
    Option (Fin n) × (Fin n → ℝ) :=
  ((List.finRange n).argmax (m.scores x), m.scores x)

open scoped Classical

/-- The design matrix after `update(a, x, ·)`: decayed rank-one update,
plus the `LinAlgError` fallback that regularises with `0.01·I` when the
matrix is singular (`det = 0` in the exact model).  Independent of the
reward. -/
noncomputable def LinUCB.updatedA {n d : ℕ} (m : LinUCB n d) (a : Fin n)
    (x : Fin d → ℝ) : Matrix (Fin d) (Fin d) ℝ :=
  let A1 := if m.decay < 1 then m.decay • m.A a + vecMulVec x x else m.A a + vecMulVec x x
  if A1.det = 0 then A1 + (1/100 : ℝ) • 1 else A1

/-- The recomputed inverse stored by `update`. -/
noncomputable def LinUCB.updatedAinv {n d : ℕ} (m : LinUCB n d) (a : Fin n)
    (x : Fin d → ℝ) : Matrix (Fin d) (Fin d) ℝ :=
  (m.updatedA a x)⁻¹

/-- `update(action, x, reward)`. -/
noncomputable def LinUCB.update {n d : ℕ} (m : LinUCB n d) (a : Fin n)
    (x : Fin d → ℝ) (reward : ℝ) : LinUCB n d :=
  { m with
    A := Function.update m.A a (m.updatedA a x)
    b := Function.update m.b a (fun i => m.b a i + reward * x i)
    Ainv := Function.update m.Ainv a (m.updatedAinv a x)
    totalUpdates := m.totalUpdates + 1
    armPulls := Function.update m.armPulls a (m.armPulls a + 1) }

end LinUCBModel

namespace CognitiveLoad

/-! ## Spec-side baseline hierarchy (for the refinement comparison) -/

/-- The claim's reading of the hierarchy, written from the spec's words:
the first **defined** level wins — the bucket-level baseline for
`(module_source, word_status)` if one exists; else the module-level
baseline; else the user-global baseline (which carries the 3000 ms
system default from `init_session`). -/
def resolveBaselineClaim (st : SessionState) (word_status : Option String) : ℚ :=
  let level23 : ℚ :=
    match st.module_baselines.lookup st.module_source with
    | some v => v
    | none => st.user_baseline_ms
  match word_status with
  | none => level23
  | some ws =>
    match (st.bucket_baselines.lookup st.module_source).bind (fun bmap => bmap.lookup ws) with
    | some v => v
    | none => level23

/-- The bucket-level entry the code consults: defined only when a
non-empty `word_status` is supplied. -/
def bucketValue (st : SessionState) (word_status : Option String) : Option ℚ :=
  match word_status with
  | none => none
  | some ws =>
    if ws = "" then none
    else (st.bucket_baselines.lookup st.module_source).bind (fun bmap => bmap.lookup ws)

/-- The module-level entry. -/
def moduleValue (st : SessionState) : Option ℚ :=
  st.module_baselines.lookup st.module_source

/-- The amended hierarchy: a level is *used* only when it is defined
**with a positive value**; the user-global baseline is the final
fallback. -/
def resolveBaselineAmended (st : SessionState) (word_status : Option String) : ℚ :=
  (((bucketValue st word_status).filter (fun v => decide (0 < v))).or
    ((moduleValue st).filter (fun v => decide (0 < v)))).getD st.user_baseline_ms

/-! ## Concrete instances used by counterexamples and witnesses -/

/-- A tracked session whose bucket-level baseline for
`("m", "new")` exists but is `0`, while the module-level baseline is
2000 ms. -/
def stC4 : SessionState :=
  { session_id := "s1", user_id := "u1", module_source := "m"
    events := []
    user_baseline_ms := 3000
    module_baselines := [("m", 2000)]
    bucket_baselines := [("m", [("new", 0)])]
    consecutive_high_load := 0 }

/-- A session with a single recorded event whose load is `1/3`
(response 4000 ms against a 3000 ms baseline). -/
def evC5 : EventLoad :=
  { sequence := 0, word_id := none, response_time_ms := 4000
    baseline_ms := 3000, cognitive_load := 1/3 }

def stC5 : SessionState :=
  { session_id := "s1", user_id := "u1", module_source := "m"
    events := [evC5]
    user_baseline_ms := 3000
    module_baselines := []
    bucket_baselines := []
    consecutive_high_load := 0 }

def estC5 : Estimator := [("s1", stC5)]

/-- A freshly tracked session with no baseline overrides. -/
def estC3 : Estimator := initSession [] "s1" "u1" "story_engine"

/-- The session state `estC3` tracks under `"s1"`. -/
def stC3 : SessionState :=
  { session_id := "s1", user_id := "u1", module_source := "story_engine"
    events := []
    user_baseline_ms := defaultBaselineMs
    module_baselines := []
    bucket_baselines := []
    consecutive_high_load := 0 }

end CognitiveLoad

namespace RLRouter

/-! ## Concrete instances for the reward and loader claims -/

def decC2 : Decision := { recommended_module := "story_engine", target_word_ids := [] }

def preC2 : PreState :=
  { avg_recall := 1/2, avg_production_score := 1/2, avg_pronunciation_score := 1/2 }

/-- Post-state with high cognitive load (0.8 > 0.7). -/
def postC2 : PostState :=
  { avg_recall := 1/2, avg_production_score := 1/2, avg_pronunciation_score := 1/2
    cognitive_load_last_session := 4/5 }

/-- A checkpoint saved by an agent with `state_dim = 10`, `n_actions = 3`
— mismatched against the router's configured 24 × 7. -/
def mismatchedCkpt : Checkpoint := PPOAgent.save (PPOAgent.init 10 3)

end RLRouter

namespace LinUCBModel

/-! ## Concrete instances for the bandit claim
(`NUM_ACTIONS = 7`, `FEATURE_DIM = 24` per the router configuration). -/

/-- The freshly constructed module-level bandit (α = 1.5, decay = 0.999). -/
noncomputable def m0 : LinUCB 7 24 := LinUCB.init 7 24

/-- The arm being updated. -/
def a0 : Fin 7 := 0

/-- A 24-dimensional context vector: the first standard basis vector. -/
def e0 : Fin 24 → ℝ := fun i => if i = 0 then 1 else 0

/-- Diagonal of the design matrix after one update of `m0` at `e0`:
`0.999·I + e₀e₀ᵀ`. -/
noncomputable def dvec : Fin 24 → ℝ := fun i => if i = 0 then 1999/1000 else 999/1000

/-- Diagonal of its inverse. -/
noncomputable def ivec : Fin 24 → ℝ := fun i => if i = 0 then 1000/1999 else 1000/999

end LinUCBModel

/-! # Theorems -/

namespace CognitiveLoad

/-- Looking a key up after erasing it always misses. -/
theorem lookup_dictErase_self (est : Estimator) (sid : String) :
    List.lookup sid (dictErase est sid) = none := by
  induction est with
  | nil => rfl
  | cons p t ih =>
    rcases p with ⟨k, v⟩
    simp only [dictErase, List.filter_cons] at ih ⊢
    by_cases h : k = sid
    · simpa [h] using ih
    · have hne : (sid == k) = false := by
        simp [Ne.symm h]
      simpa [h, List.lookup, hne] using ih

/-- C10: a tracked session with zero recorded events yields the neutral
snapshot: load 0, stable trend, `continue`, zero counters, empty window. -/
theorem getSessionLoad_empty_events (est : Estimator) (sid : String)
    (st : SessionState) (h : List.lookup sid est = some st)
    (hev : st.events = []) :
    getSessionLoad est sid =
      some
        { currentLoad := 0
          trend := Trend.stable
          recommendedAction := RecommendedAction.continue_
          eventCount := 0
          consecutiveHighLoad := 0
          avgLoad := 0
          recentLoads := [] } := by
  simp [getSessionLoad, h, hev]

/-- C10 witness: a freshly initialised session is tracked, has no
events, and `get_session_load` returns the neutral snapshot. -/
theorem getSessionLoad_empty_events_witness :
    getSessionLoad estC3 "s1" =
      some
        { currentLoad := 0
          trend := Trend.stable
          recommendedAction := RecommendedAction.continue_
          eventCount := 0
          consecutiveHighLoad := 0
          avgLoad := 0
          recentLoads := [] } :=
  getSessionLoad_empty_events estC3 "s1" stC3 (by decide) (by decide)

/-- `end_session` on an estimator that does not track the id. -/
theorem endSession_not_tracked (est : Estimator) (sid : String)
    (h : List.lookup sid est = none) : endSession est sid = (none, est) := by
  simp [endSession, h]

/-- Rounding `1/3` to four decimal places. -/
theorem round4_one_third : round4 (1/3 : ℚ) = 3333/10000 := by
  unfold round4
  have h1 : ((1:ℚ)/3) * 10000 = 10000/3 := by norm_num
  have h2 : round ((10000:ℚ)/3) = 3333 := by
    rw [round_eq]
    have h3 : (10000:ℚ)/3 + 1/2 = 20003/6 := by norm_num
    have h4 : ⌊(20003:ℚ)/6⌋ = 3333 := by
      rw [Int.floor_eq_iff]
      constructor <;> norm_num
    rw [h3, h4]
  rw [h1, h2]
  norm_num

/-- C5 counterexample: `end_session` does not return the arithmetic mean
of the recorded loads — it returns the mean rounded to four decimal
places.  With a single event of load `1/3` the first call returns
`0.3333`, which differs from the mean `1/3`. -/
theorem endSession_result_is_rounded :
    (endSession estC5 "s1").1 = some (3333/10000) ∧
    (stC5.events.map EventLoad.cognitive_load).sum / (stC5.events.length : ℚ) = 1/3 ∧
    ((3333 : ℚ)/10000) ≠ 1/3 := by
  have h1 : List.lookup "s1" estC5 = some stC5 := rfl
  refine ⟨?_, by norm_num [stC5, evC5], by norm_num⟩
  have hval : (endSession estC5 "s1").1 = some (round4 ((1:ℚ)/3)) := by
    simp only [endSession, h1]
    norm_num [stC5, evC5]
  rw [hval, round4_one_third]

/-- C5 (amended): on a tracked session the first `end_session` call pops
the state and returns the mean of the recorded loads rounded to four
decimals (exactly 0 when no events were recorded); a second call — or a
call for an untracked id — returns null and leaves the estimator
unchanged. -/
theorem endSession_rounded_mean_and_idempotent (est : Estimator) (sid : String) :
    (∀ st, List.lookup sid est = some st →
      (endSession est sid).1 =
        some (if st.events = [] then 0
              else round4 ((st.events.map EventLoad.cognitive_load).sum /
                            (st.events.length : ℚ))) ∧
      endSession (endSession est sid).2 sid = (none, (endSession est sid).2)) ∧
    (List.lookup sid est = none → endSession est sid = (none, est)) := by
  constructor
  · intro st h
    have hsnd : (endSession est sid).2 = dictErase est sid := by
      simp only [endSession, h]
      split <;> rfl
    constructor
    · simp only [endSession, h]
      by_cases he : st.events = [] <;> simp [he]
    · rw [hsnd]
      exact endSession_not_tracked _ _ (lookup_dictErase_self est sid)
  · exact endSession_not_tracked est sid

/-- C5 witness: on the concrete one-event estimator `estC5`, the first
call returns `0.3333`, the second call returns null without side
effects, and an untracked id returns null. -/
theorem endSession_rounded_mean_and_idempotent_witness :
    (endSession estC5 "s1").1 = some (round4 (1/3)) ∧
    endSession (endSession estC5 "s1").2 "s1" = (none, (endSession estC5 "s1").2) ∧
    endSession estC5 "zzz" = (none, estC5) := by
  have h := endSession_rounded_mean_and_idempotent estC5 "s1"
  have h1 := h.1 stC5 rfl
  have h2 := (endSession_rounded_mean_and_idempotent estC5 "zzz").2 rfl
  refine ⟨?_, h1.2, h2⟩
  have hv := h1.1
  simpa [stC5, evC5] using hv

/-- C3: on a tracked session, for a positive resolved baseline `b`,
`record_event` returns `clamp((rt − b)/b, 0, 1)`; consequently the
returned load is monotone in the response time, `0` whenever `rt ≤ b`,
and `1` whenever `rt ≥ 2b`. -/
theorem recordEvent_load_clamp (est : Estimator) (sid : String)
    (wid ws : Option String) (seq : ℤ) (st : SessionState)
    (h : List.lookup sid est = some st)
    (hb : 0 < resolveBaseline st ws) (rt rt' : ℚ)
    (hrt : 0 < rt) (hle : rt ≤ rt') :
    (recordEvent est sid wid ws (some rt) seq).1 =
      some (clampQ ((rt - resolveBaseline st ws) / resolveBaseline st ws) 0 1) ∧
    clampQ ((rt - resolveBaseline st ws) / resolveBaseline st ws) 0 1 ≤
      clampQ ((rt' - resolveBaseline st ws) / resolveBaseline st ws) 0 1 ∧
    (rt ≤ resolveBaseline st ws →
      (recordEvent est sid wid ws (some rt) seq).1 = some 0) ∧
    (2 * resolveBaseline st ws ≤ rt →
      (recordEvent est sid wid ws (some rt) seq).1 = some 1) := by
  set b := resolveBaseline st ws with hbdef
  have hformula : (recordEvent est sid wid ws (some rt) seq).1 =
      some (clampQ ((rt - b) / b) 0 1) := by
    simp [recordEvent, h, not_le.mpr hrt, hb]
  have hmono : clampQ ((rt - b) / b) 0 1 ≤ clampQ ((rt' - b) / b) 0 1 := by
    have hstep : (rt - b) / b ≤ (rt' - b) / b := by
      apply div_le_div_of_nonneg_right _ hb.le
      linarith
    exact min_le_min le_rfl (max_le_max le_rfl hstep)
  refine ⟨hformula, hmono, ?_, ?_⟩
  · intro hle0
    rw [hformula]
    have hnum : (rt - b) / b ≤ 0 :=
      div_nonpos_of_nonpos_of_nonneg (by linarith) hb.le
    have : clampQ ((rt - b) / b) 0 1 = 0 := by
      unfold clampQ
      rw [max_eq_left hnum, min_eq_right]
      norm_num
    rw [this]
  · intro h2b
    rw [hformula]
    have hnum : (1:ℚ) ≤ (rt - b) / b := by
      rw [le_div_iff₀ hb]
      linarith
    have : clampQ ((rt - b) / b) 0 1 = 1 := by
      unfold clampQ
      rw [max_eq_right (by linarith : (0:ℚ) ≤ (rt - b)/b), min_eq_left hnum]
    rw [this]

/-- C3 witness: on the fresh session (baseline 3000 ms), a 4500 ms
response scores load 1/2, a 3000 ms response scores 0, and a 6000 ms
response scores 1. -/
theorem recordEvent_load_clamp_witness :
    (recordEvent estC3 "s1" none none (some 4500) 0).1 = some (1/2) ∧
    (recordEvent estC3 "s1" none none (some 3000) 0).1 = some 0 ∧
    (recordEvent estC3 "s1" none none (some 6000) 0).1 = some 1 := by
  have hbval : resolveBaseline stC3 none = 3000 := by
    simp [resolveBaseline, resolveModuleOrUser, stC3, defaultBaselineMs]
  have hb : (0:ℚ) < resolveBaseline stC3 none := by rw [hbval]; norm_num
  have hlk : List.lookup "s1" estC3 = some stC3 := rfl
  have h1 := (recordEvent_load_clamp estC3 "s1" none none 0 stC3 hlk hb
    4500 4500 (by norm_num) le_rfl).1
  have h2 := (recordEvent_load_clamp estC3 "s1" none none 0 stC3 hlk hb
    3000 3000 (by norm_num) le_rfl).2.2.1 (by rw [hbval])
  have h3 := (recordEvent_load_clamp estC3 "s1" none none 0 stC3 hlk hb
    6000 6000 (by norm_num) le_rfl).2.2.2 (by rw [hbval]; norm_num)
  refine ⟨?_, h2, h3⟩
  rw [h1, hbval]
  norm_num [clampQ]

/-- C4 counterexample: a bucket-level baseline that *exists* (value 0)
is skipped by the code, which resolves the module-level 2000 ms instead;
with a 4000 ms response the recorded load is 1 (computed from 2000). -/
theorem resolveBaseline_skips_nonpositive_bucket :
    resolveBaseline stC4 (some "new") = 2000 ∧
    resolveBaselineClaim stC4 (some "new") = 0 ∧
    resolveBaseline stC4 (some "new") ≠ resolveBaselineClaim stC4 (some "new") ∧
    (recordEvent [("s1", stC4)] "s1" none (some "new") (some 4000) 0).1 = some 1 := by
  have h1 : resolveBaseline stC4 (some "new") = 2000 := by
    simp [resolveBaseline, resolveModuleOrUser, stC4]
  have h2 : resolveBaselineClaim stC4 (some "new") = 0 := by
    simp [resolveBaselineClaim, stC4]
  refine ⟨h1, h2, by rw [h1, h2]; norm_num, ?_⟩
  have hlk : List.lookup "s1" [("s1", stC4)] = some stC4 := rfl
  simp only [recordEvent, hlk]
  norm_num [h1, clampQ]

/-- C4 (amended): the baseline hierarchy resolves the first level that is
defined **with a positive value**: the bucket for `(module_source,
word_status)` when a non-empty `word_status` is supplied; else the
module level; else the user-global baseline (3000 ms system default at
`init_session`). -/
theorem resolveBaseline_eq_amended (st : SessionState) (ws : Option String) :
    resolveBaseline st ws = resolveBaselineAmended st ws := by
  unfold resolveBaseline resolveBaselineAmended bucketValue moduleValue
    resolveModuleOrUser
  cases ws with
  | none =>
    cases hm : st.module_baselines.lookup st.module_source with
    | none => simp [hm]
    | some v =>
      by_cases hv : 0 < v <;> simp [hm, hv, Option.filter]
  | some s =>
    by_cases hs : s = ""
    · simp only [hs, if_pos rfl]
      cases hm : st.module_baselines.lookup st.module_source with
      | none => simp [hm]
      | some v => by_cases hv : 0 < v <;> simp [hm, hv, Option.filter]
    · simp only [if_neg hs]
      cases hbkt : st.bucket_baselines.lookup st.module_source with
      | none =>
        cases hm : st.module_baselines.lookup st.module_source with
        | none => simp [hbkt, hm]
        | some v => by_cases hv : 0 < v <;> simp [hbkt, hm, hv, Option.filter]
      | some bmap =>
        cases hb : bmap.lookup s with
        | none =>
          cases hm : st.module_baselines.lookup st.module_source with
          | none => simp [hbkt, hb, hm]
          | some v => by_cases hv : 0 < v <;> simp [hbkt, hb, hm, hv, Option.filter]
        | some v =>
          by_cases hv : 0 < v
          · simp [hbkt, hb, hv, Option.filter]
          · simp only [if_neg hv]
            cases hm : st.module_baselines.lookup st.module_source with
            | none => simp [hbkt, hb, hm, hv, Option.filter]
            | some w => by_cases hw : 0 < w <;> simp [hbkt, hb, hm, hv, hw, Option.filter]

end CognitiveLoad

/-- Rounding to four decimals commutes with adding an integer. -/
theorem round4_add_int (q : ℚ) (k : ℤ) : round4 (q + (k : ℚ)) = round4 q + k := by
  unfold round4
  have h1 : (q + (k:ℚ)) * 10000 = q * 10000 + ((k * 10000 : ℤ) : ℚ) := by
    push_cast; ring
  rw [h1, round_add_int]
  push_cast
  ring

/-- Shift form of `round4_add_int` for the offset 2. -/
theorem round4_eq_of_shift_two {x y : ℚ} (h : x = y + 2) : round4 x = round4 y + 2 := by
  have := round4_add_int y 2
  rw [h]
  simpa using this

/-- Shift form of `round4_add_int` for the offset 1. -/
theorem round4_eq_of_shift_one {x y : ℚ} (h : x = y + 1) : round4 x = round4 y + 1 := by
  have := round4_add_int y 1
  rw [h]
  simpa using this

namespace RLRouter

/-- C2 counterexample: with post cognitive load 0.8 (> 0.7) and otherwise
neutral states, the completed variant scores 1.0 and the uncompleted
variant −1.0 — a difference of 2.0, not 1.0. -/
theorem computeReward_completed_gap_two :
    (computeReward decC2 preC2 postC2 true []).1 = 1 ∧
    (computeReward decC2 preC2 postC2 false []).1 = -1 ∧
    (computeReward decC2 preC2 postC2 true []).1 ≠
      (computeReward decC2 preC2 postC2 false []).1 + 1 := by
  have ht : (computeReward decC2 preC2 postC2 true []).1 = 1 := by
    simp only [computeReward]
    norm_num [decC2, preC2, postC2, monotonyTriggered, monotonyWindow,
      rewardSessionCompleted, round4]
  have hf : (computeReward decC2 preC2 postC2 false []).1 = -1 := by
    simp only [computeReward]
    norm_num [decC2, preC2, postC2, monotonyTriggered, monotonyWindow,
      rewardSessionAbandoned, round4]
    rw [show ((-10000 : ℚ)) = (((-10000 : ℤ)) : ℚ) by norm_num, round_intCast]
    norm_num
  exact ⟨ht, hf, by rw [ht, hf]; norm_num⟩

/-- C2 (amended): for otherwise-identical inputs differing only in
`session_completed`, the completed variant's total reward exceeds the
uncompleted variant's by exactly 1.0 when the post cognitive load is at
most 0.7, and by exactly 2.0 when it exceeds 0.7 (the abandonment
penalty also switches). -/
theorem computeReward_completed_delta (decision : Decision) (pre : PreState)
    (post : PostState) (mods : List String) :
    (computeReward decision pre post true mods).1 =
      (computeReward decision pre post false mods).1 +
        (if 7/10 < post.cognitive_load_last_session then 2 else 1) := by
  by_cases hc : (7:ℚ)/10 < post.cognitive_load_last_session
  · simp only [computeReward, hc, if_pos, if_neg, Bool.not_true, Bool.not_false,
      and_true, and_false, false_and, true_and, not_true, not_false_iff]
    norm_num [rewardSessionCompleted, rewardSessionAbandoned]
    exact round4_eq_of_shift_two (by ring)
  · simp only [computeReward, hc, Bool.not_true, Bool.not_false,
      and_true, and_false, false_and, true_and, not_true, not_false_iff]
    norm_num [rewardSessionCompleted, rewardSessionAbandoned]
    exact round4_eq_of_shift_one (by ring)

/-- C6: `next_activity` selects cold-start rules below 50 interaction
events; otherwise PPO exactly when a PPO artifact is loaded and the
global session count is known and at least 10 000; otherwise LinUCB. -/
theorem selectAlgorithm_spec (env : RouterEnv) :
    (env.eventCount < coldStartMinEvents → selectAlgorithm env = Algorithm.coldStart) ∧
    (coldStartMinEvents ≤ env.eventCount →
      env.ppoLoaded = true →
      (∃ t, env.totalSessions = some t ∧ minSessionsForPPO ≤ t) →
      selectAlgorithm env = Algorithm.ppo) ∧
    (coldStartMinEvents ≤ env.eventCount →
      (env.ppoLoaded = false ∨ env.totalSessions = none ∨
        (∃ t, env.totalSessions = some t ∧ t < minSessionsForPPO)) →
      selectAlgorithm env = Algorithm.linucb) := by
  refine ⟨?_, ?_, ?_⟩
  · intro h
    simp [selectAlgorithm, h]
  · rintro h hl ⟨t, ht, hcount⟩
    simp [selectAlgorithm, Nat.not_lt.mpr h, shouldUsePPO, hl, ht, hcount]
  · rintro h (hl | hnone | ⟨t, ht, hcount⟩)
    · simp [selectAlgorithm, Nat.not_lt.mpr h, shouldUsePPO, hl]
    · simp [selectAlgorithm, Nat.not_lt.mpr h, shouldUsePPO, hnone]
    · simp [selectAlgorithm, Nat.not_lt.mpr h, shouldUsePPO, ht, Nat.not_le.mpr hcount]

/-- C6 witness: three concrete environments, one per branch. -/
theorem selectAlgorithm_spec_witness :
    selectAlgorithm ⟨10, true, some 20000⟩ = Algorithm.coldStart ∧
    selectAlgorithm ⟨50, true, some 10000⟩ = Algorithm.ppo ∧
    selectAlgorithm ⟨50, true, some 9999⟩ = Algorithm.linucb := by
  refine ⟨?_, ?_, ?_⟩
  · exact (selectAlgorithm_spec ⟨10, true, some 20000⟩).1 (by decide)
  · exact (selectAlgorithm_spec ⟨50, true, some 10000⟩).2.1 (by decide) rfl
      ⟨10000, rfl, by decide⟩
  · exact (selectAlgorithm_spec ⟨50, true, some 9999⟩).2.2 (by decide)
      (Or.inr (Or.inr ⟨9999, rfl, by decide⟩))

/-- C7: the code at the failing input — loading a checkpoint saved with
`state_dim = 10`, `n_actions = 3` into the router's 24 × 7 agent is
*accepted*: `load` returns `True`, marks the agent loaded, and installs
a network with the checkpoint's dimensions, although they do not match
the agent's configuration. -/
theorem ppoLoad_accepts_mismatched_artifact :
    (PPOAgent.load PPOAgent.init (some mismatchedCkpt)).1 = true ∧
    (PPOAgent.load PPOAgent.init (some mismatchedCkpt)).2.is_loaded = true ∧
    (PPOAgent.load PPOAgent.init (some mismatchedCkpt)).2.network.state_dim = 10 ∧
    mismatchedCkpt.state_dim ≠ PPOAgent.init.state_dim ∧
    mismatchedCkpt.n_actions ≠ PPOAgent.init.n_actions := by
  refine ⟨rfl, rfl, rfl, ?_, ?_⟩ <;> decide

end RLRouter

namespace GDPR

/-- C8: the code at the failing input — a `user_topic_preferences` row
for the user survives `delete_user_ml_data`, although the spec lists
topic preferences among the ML-owned stores to erase; the tables the
code does list are emptied. -/
theorem deleteUser_misses_topic_preferences :
    "user_topic_preferences" ∈ specOwnedTables ∧
    "user_topic_preferences" ∉ supabaseTables ∧
    (deleteUserMLData
        { cacheKeys := []
          tables := [("user_topic_preferences", ["u1"]), ("routing_decisions", ["u1"])] }
        "u1").tables.lookup "user_topic_preferences" = some ["u1"] ∧
    (deleteUserMLData
        { cacheKeys := []
          tables := [("user_topic_preferences", ["u1"]), ("routing_decisions", ["u1"])] }
        "u1").tables.lookup "routing_decisions" = some [] := by
  refine ⟨by decide, by decide, ?_, ?_⟩ <;> rfl

end GDPR

namespace StorySelector

/-- The number of selected due words never exceeds step 4's allowance. -/
theorem selectStoryWords_length_le_maxDueCount
    (rankDue : List UserWord → List String)
    (fillKnown : List UserWord → List String → ℕ → List String)
    (bias : List String) (words : List UserWord) (now : ℚ)
    (target : ℕ) (level : ℤ) :
    (selectStoryWords rankDue fillKnown bias words now target level).due_words.length ≤
      maxDueCount target level := by
  unfold selectStoryWords
  split
  · simp
  · simp [List.length_take]

/-- C9: the number of due words is at most
`max(min_new_words = 1, 0.05·target + (complexity_level − 1))` and never
exceeds 10 % of the target word count — for every ranking subroutine,
known-pool filler, word list and complexity level ≥ 1. -/
theorem selectStoryWords_due_cap
    (rankDue : List UserWord → List String)
    (fillKnown : List UserWord → List String → ℕ → List String)
    (bias : List String) (words : List UserWord) (now : ℚ)
    (target : ℕ) (level : ℤ) (hlevel : 1 ≤ level) :
    (((selectStoryWords rankDue fillKnown bias words now target level).due_words.length : ℚ) ≤
      max 1 ((target : ℚ) * maxNewWordRatio + ((level : ℚ) - 1))) ∧
    (((selectStoryWords rankDue fillKnown bias words now target level).due_words.length : ℚ) ≤
      (target : ℚ) / 10) := by
  have hcap := selectStoryWords_length_le_maxDueCount rankDue fillKnown bias words now
    target level
  have hcapQ : ((selectStoryWords rankDue fillKnown bias words now target
      level).due_words.length : ℚ) ≤ ((maxDueCount target level : ℕ) : ℚ) := by
    exact_mod_cast hcap
  have h10 : ((maxDueCount target level : ℕ) : ℚ) ≤ (target : ℚ) / 10 := by
    have h1 : maxDueCount target level ≤ target / 10 := min_le_right _ _
    calc ((maxDueCount target level : ℕ) : ℚ) ≤ ((target / 10 : ℕ) : ℚ) := by
          exact_mod_cast h1
      _ ≤ (target : ℚ) / 10 := Nat.cast_div_le
  have hmax : ((maxDueCount target level : ℕ) : ℚ) ≤
      max 1 ((target : ℚ) * maxNewWordRatio + ((level : ℚ) - 1)) := by
    by_cases ht : 20 ≤ target
    · have h20 : 1 ≤ target / 20 := (Nat.one_le_div_iff (by norm_num)).mpr ht
      have hmx : max minNewWords (target / 20) = target / 20 := max_eq_right h20
      have hle : maxDueCount target level ≤ target / 20 + (level - 1).toNat := by
        calc maxDueCount target level ≤ max minNewWords (target / 20) + (level - 1).toNat :=
              min_le_left _ _
          _ = target / 20 + (level - 1).toNat := by rw [hmx]
      have htn : (((level - 1).toNat : ℕ) : ℚ) = (level : ℚ) - 1 := by
        have : ((level - 1).toNat : ℤ) = level - 1 := Int.toNat_of_nonneg (by omega)
        exact_mod_cast this
      calc ((maxDueCount target level : ℕ) : ℚ)
          ≤ ((target / 20 + (level - 1).toNat : ℕ) : ℚ) := by exact_mod_cast hle
        _ = ((target / 20 : ℕ) : ℚ) + (((level - 1).toNat : ℕ) : ℚ) := by push_cast; ring
        _ ≤ (target : ℚ) / 20 + ((level : ℚ) - 1) := by
            have := Nat.cast_div_le (α := ℚ) (m := target) (n := 20)
            rw [htn]
            push_cast at this ⊢
            linarith
        _ = (target : ℚ) * maxNewWordRatio + ((level : ℚ) - 1) := by
            norm_num [maxNewWordRatio]; ring
        _ ≤ max 1 ((target : ℚ) * maxNewWordRatio + ((level : ℚ) - 1)) := le_max_right _ _
    · have h19 : target / 10 ≤ 1 := by omega
      have hle : maxDueCount target level ≤ 1 := le_trans (min_le_right _ _) h19
      calc ((maxDueCount target level : ℕ) : ℚ) ≤ 1 := by exact_mod_cast hle
        _ ≤ max 1 ((target : ℚ) * maxNewWordRatio + ((level : ℚ) - 1)) := le_max_left _ _
  exact ⟨le_trans hcapQ hmax, le_trans hcapQ h10⟩

/-- C9 witness: a concrete selection (one due word, target 100, level 2)
satisfies both bounds. -/
theorem selectStoryWords_due_cap_witness :
    (1 : ℤ) ≤ 2 ∧
    ((((selectStoryWords (fun l => l.map UserWord.id) (fun _ _ _ => []) []
        [{ id := "w1", status := some "new", story_introduction_threshold := none
           ease_factor := none, next_review := none }] 0 100 2).due_words.length : ℚ) ≤
      max 1 ((100 : ℚ) * maxNewWordRatio + ((2 : ℚ) - 1))) ∧
    (((selectStoryWords (fun l => l.map UserWord.id) (fun _ _ _ => []) []
        [{ id := "w1", status := some "new", story_introduction_threshold := none
           ease_factor := none, next_review := none }] 0 100 2).due_words.length : ℚ) ≤
      (100 : ℚ) / 10)) :=
  ⟨by norm_num,
   selectStoryWords_due_cap (fun l => l.map UserWord.id) (fun _ _ _ => []) []
     [{ id := "w1", status := some "new", story_introduction_threshold := none
        ease_factor := none, next_review := none }] 0 100 2 (by norm_num)⟩

end StorySelector

namespace LinUCBModel

open Matrix

/-- The mean term of the post-update score is affine in the reward, with
slope `(A'⁻¹ x)·x`. -/
theorem post_update_mean_affine {n d : ℕ} (m : LinUCB n d) (a : Fin n)
    (x : Fin d → ℝ) (r : ℝ) :
    (m.updatedAinv a x *ᵥ (fun i => m.b a i + r * x i)) ⬝ᵥ x =
      (m.updatedAinv a x *ᵥ m.b a) ⬝ᵥ x + r * ((m.updatedAinv a x *ᵥ x) ⬝ᵥ x) := by
  have hsplit : (fun i => m.b a i + r * x i) = m.b a + r • x := by
    funext i
    simp [Pi.add_apply, Pi.smul_apply, smul_eq_mul]
  rw [hsplit, Matrix.mulVec_add, Matrix.mulVec_smul, add_dotProduct, smul_dotProduct,
    smul_eq_mul]

/-- C1 (amended): the UCB score of the updated arm at the update context
is strictly increasing in the reward (the exploration bonus after the
update does not depend on the reward), provided the updated inverse is
positive along `x`. -/
theorem score_strictMono_in_reward {n d : ℕ} (m : LinUCB n d) (a : Fin n)
    (x : Fin d → ℝ) (r₁ r₂ : ℝ) (hr : r₁ < r₂)
    (hpos : 0 < (m.updatedAinv a x *ᵥ x) ⬝ᵥ x) :
    (m.update a x r₁).score a x < (m.update a x r₂).score a x := by
  unfold LinUCB.update LinUCB.score LinUCB.theta
  simp only [Function.update_same]
  rw [post_update_mean_affine, post_update_mean_affine]
  have := mul_lt_mul_of_pos_right hr hpos
  linarith

theorem dvec_mul_ivec (i : Fin 24) : dvec i * ivec i = 1 := by
  unfold dvec ivec
  split <;> norm_num

/-- `diag(dvec) · diag(ivec) = I`. -/
theorem diag_right_inv : Matrix.diagonal dvec * Matrix.diagonal ivec = 1 := by
  rw [Matrix.diagonal_mul_diagonal]
  have h2 : (fun i => dvec i * ivec i) = (1 : Fin 24 → ℝ) :=
    funext fun i => dvec_mul_ivec i
  rw [h2]
  exact Matrix.diagonal_one

/-- Dotting with the basis vector `e0` on the right picks coordinate 0. -/
theorem dot_e0 (v : Fin 24 → ℝ) : v ⬝ᵥ e0 = v 0 := by
  simp [dotProduct, e0, mul_ite, mul_one, mul_zero]

/-- Dotting with the basis vector `e0` on the left picks coordinate 0. -/
theorem e0_dot (v : Fin 24 → ℝ) : e0 ⬝ᵥ v = v 0 := by
  simp [dotProduct, e0, ite_mul, one_mul, zero_mul]

/-- The design matrix after one update of the fresh model at `e0` is the
diagonal matrix `diag(1.999, 0.999, …, 0.999)`. -/
theorem updatedA_m0 : m0.updatedA a0 e0 = Matrix.diagonal dvec := by
  have hdecay : m0.decay < 1 := by
    simp only [m0, LinUCB.init]
    have : ((RLRouter.banditDecay : ℚ) : ℝ) < ((1 : ℚ) : ℝ) := by
      exact_mod_cast (by norm_num [RLRouter.banditDecay] : RLRouter.banditDecay < 1)
    simpa using this
  have hA1 : m0.decay • m0.A a0 + vecMulVec e0 e0 = Matrix.diagonal dvec := by
    ext i j
    by_cases hij : i = j
    · subst hij
      by_cases h0 : i = 0
      · simp [m0, LinUCB.init, Matrix.smul_apply, Matrix.one_apply, vecMulVec_apply,
          Matrix.diagonal_apply, e0, dvec, h0, RLRouter.banditDecay]
        norm_num
      · simp [m0, LinUCB.init, Matrix.smul_apply, Matrix.one_apply, vecMulVec_apply,
          Matrix.diagonal_apply, e0, dvec, h0, RLRouter.banditDecay]
    · by_cases hi0 : i = 0 <;> by_cases hj0 : j = 0 <;>
        simp_all [m0, LinUCB.init, Matrix.smul_apply, Matrix.one_apply, vecMulVec_apply,
          Matrix.diagonal_apply, e0, dvec]
  have hdet : (Matrix.diagonal dvec).det ≠ 0 :=
    Matrix.det_ne_zero_of_right_inverse diag_right_inv
  unfold LinUCB.updatedA
  simp only [if_pos hdecay, hA1, if_neg hdet]

/-- …and its recomputed inverse is `diag(1000/1999, 1000/999, …)`. -/
theorem updatedAinv_m0 : m0.updatedAinv a0 e0 = Matrix.diagonal ivec := by
  rw [LinUCB.updatedAinv, updatedA_m0]
  exact Matrix.inv_eq_right_inv diag_right_inv

/-- The UCB score of the fresh model at `e0` is `α·√1 = 1.5`. -/
theorem score_m0 : m0.score a0 e0 = 3/2 := by
  unfold LinUCB.score LinUCB.theta
  have hb : m0.b a0 = 0 := rfl
  have hAinv : m0.Ainv a0 = 1 := rfl
  rw [hb, hAinv]
  simp only [Matrix.mulVec_zero, zero_dotProduct, Matrix.one_mulVec]
  rw [e0_dot]
  have he : e0 0 = 1 := by simp [e0]
  rw [he, Real.sqrt_one]
  have ha : m0.alpha = ((RLRouter.banditAlpha : ℚ) : ℝ) := rfl
  rw [ha]
  norm_num [RLRouter.banditAlpha]

/-- The UCB score of the updated arm at `e0`, as a function of the
reward: `r·(1000/1999) + 1.5·√(1000/1999)`. -/
theorem score_update_m0 (r : ℝ) :
    (m0.update a0 e0 r).score a0 e0 =
      r * (1000/1999) + (3/2) * Real.sqrt (1000/1999) := by
  unfold LinUCB.update LinUCB.score LinUCB.theta
  simp only [Function.update_same]
  rw [post_update_mean_affine, updatedAinv_m0]
  have hb : m0.b a0 = 0 := rfl
  rw [hb]
  simp only [Matrix.mulVec_zero, zero_dotProduct, zero_add]
  rw [dot_e0, e0_dot]
  have h1 : (Matrix.diagonal ivec *ᵥ e0) 0 = 1000/1999 := by
    rw [Matrix.mulVec_diagonal]
    simp [ivec, e0]
  rw [h1]
  have ha : m0.alpha = ((RLRouter.banditAlpha : ℚ) : ℝ) := rfl
  rw [ha]
  norm_num [RLRouter.banditAlpha]

/-- C1 counterexample: updating the fresh model on arm 0 with the
24-dimensional context `e0` and the strictly positive reward `0.1`
strictly *decreases* the UCB score `predict` computes for that arm at
the same context (1.5 before, ≈ 1.11 after): the loss of exploration
bonus outweighs the reward's contribution to the mean. -/
theorem score_decreases_after_positive_reward :
    (0 : ℝ) < 1/10 ∧
    (m0.update a0 e0 (1/10)).score a0 e0 < m0.score a0 e0 := by
  refine ⟨by norm_num, ?_⟩
  rw [score_update_m0, score_m0]
  have hs : Real.sqrt (1000/1999) < 71/100 :=
    (Real.sqrt_lt' (by norm_num)).mpr (by norm_num)
  have hnn : (0:ℝ) ≤ Real.sqrt (1000/1999) := Real.sqrt_nonneg _
  nlinarith

/-- C1 witness: for rewards `0 < 1` the post-update scores at the fresh
model are strictly ordered; the positivity side condition is the
concrete value `1000/1999`. -/
theorem score_strictMono_in_reward_witness :
    (0 : ℝ) < 1 ∧
    (m0.update a0 e0 0).score a0 e0 < (m0.update a0 e0 1).score a0 e0 :=
  ⟨by norm_num,
   score_strictMono_in_reward m0 a0 e0 0 1 (by norm_num)
     (by
       rw [updatedAinv_m0, dot_e0]
       rw [Matrix.mulVec_diagonal]
       simp [ivec, e0])⟩

end LinUCBModel
